import Mathlib

/-!
Verification of the PharmaCrystal coformer-screening engine
(src/Saltcocrystalpredictor.py) against its natural-language specification.

The Python source is shallowly embedded over the real numbers.  Python float
arithmetic is modelled by exact real arithmetic; `round(x, n)` is modelled by
`roundTo n x` below, and the final `int(round(_))` of the composite score by
Mathlib's `round : ℝ → ℤ`.  Python rounds exact halves to even while Mathlib's
`round` rounds them up; none of the values examined in this development falls
on an exact half, so the two conventions agree on everything proved here.

Closed input vocabularies (the API nature selectbox, the functional-group
selectbox, and the per-catalog-entry `hygro_risk`, `synthon` and `type`
strings) are embedded as inductive enumerations; free-text OUTPUT labels are
kept as the exact strings of the source.
-/

namespace SaltCocrystal

open Real

/-- Model of Python `round(x, n)` (round to `n` decimal places), using
Mathlib's `round` (nearest integer, halves up). -/
noncomputable def roundTo (n : ℕ) (x : ℝ) : ℝ :=
  (round (x * 10 ^ n) : ℤ) / 10 ^ n

/-- Python `round(x, 3)`. -/
noncomputable def round3 (x : ℝ) : ℝ := roundTo 3 x

/-- Python `round(x, 1)`. -/
noncomputable def round1 (x : ℝ) : ℝ := roundTo 1 x

theorem round_le_round {x y : ℝ} (h : x ≤ y) : round x ≤ round y := by
  rw [round_eq, round_eq]
  exact Int.floor_mono (by linarith)

theorem roundTo_mono (n : ℕ) {x y : ℝ} (h : x ≤ y) : roundTo n x ≤ roundTo n y := by
  unfold roundTo
  have h10 : (0:ℝ) < 10 ^ n := by positivity
  have : round (x * 10 ^ n) ≤ round (y * 10 ^ n) :=
    round_le_round (by nlinarith)
  exact div_le_div_of_nonneg_right (by exact_mod_cast this) h10.le

/-- Compute `round` from an explicit bracketing of `x + 1/2`. -/
theorem round_eq_of {x : ℝ} {k : ℤ} (h1 : (k : ℝ) ≤ x + 1 / 2) (h2 : x + 1 / 2 < k + 1) :
    round x = k := by
  rw [round_eq]
  exact Int.floor_eq_iff.mpr ⟨h1, h2⟩

/-- Compute `roundTo n` from an explicit bracketing. -/
theorem roundTo_eq_of (n : ℕ) {x : ℝ} {k : ℤ}
    (h1 : (k : ℝ) ≤ x * 10 ^ n + 1 / 2) (h2 : x * 10 ^ n + 1 / 2 < k + 1) :
    roundTo n x = k / 10 ^ n := by
  unfold roundTo
  rw [round_eq_of h1 h2]

/-! ### Closed input vocabularies -/

/-- The "API Nature" selectbox: `["Base", "Acid"]`. -/
inductive ApiNature
  | base
  | acid
  deriving DecidableEq

/-- The "Primary Functional Group" selectbox of the sidebar. -/
inductive ApiSynthon
  | carboxylicAcid
  | amine
  | pyridine
  | amide
  | phenol
  | sulfonate
  | hydroxyl
  deriving DecidableEq

/-- The `synthon` strings occurring in `etter_scores` and `coformers_db`. -/
inductive CfSynthon
  | inorganicIon
  | carboxylicAcid
  | sulfonate
  | amine
  | pyridineAmide
  | imide
  | amide
  | phenol
  deriving DecidableEq

/-- The `hygro_risk` strings of the catalog: "High" / "Medium" / "Low". -/
inductive HygroRisk
  | high
  | medium
  | low
  deriving DecidableEq

/-- The `type` strings of the catalog.  The source tests `"Polymer" in
cf["type"]`; of the four catalog type strings only "Polymer (ASD)" contains
the substring "Polymer". -/
inductive CfKind
  | saltAnion     -- "Salt (Anion)"
  | saltCation    -- "Salt (Cation)"
  | coformer      -- "Coformer"
  | polymerASD    -- "Polymer (ASD)"
  deriving DecidableEq

/-- Python `"Polymer" in cf["type"]`. -/
def CfKind.isPolymer : CfKind → Bool
  | .polymerASD => true
  | _ => false

/-! ### Enhanced scientific models (source lines 343-629) -/

/-- `cruz_cabeza_pka_probability(delta_pka)`: three-zone salt-formation
probability.  Branches exactly as in the source: `delta_pka < -1` gives the
clipped exponential, `delta_pka > 6` gives 0.99, otherwise the sigmoid with
inflection 2.0 and slope 1.8; the first and third branches are rounded to
three decimals by `round(_, 3)`. -/
noncomputable def cruz_cabeza_pka_probability (delta_pka : ℝ) : ℝ :=
  if delta_pka < -1 then
    round3 (max 0.02 (0.05 * exp (delta_pka + 1)))
  else if delta_pka > 6 then
    0.99
  else
    round3 (1.0 / (1.0 + exp (-1.8 * (delta_pka - 2.0))))

/-- The `etter_scores` lookup table; `etter_score(api_s, cf_s)` is
`etter_scores.get((api_s, cf_s), 0)`, so pairs absent from the table give 0. -/
def etter_score : ApiSynthon → CfSynthon → ℕ
  | .carboxylicAcid, .pyridineAmide => 2
  | .carboxylicAcid, .amine => 2
  | .carboxylicAcid, .amide => 1
  | .carboxylicAcid, .carboxylicAcid => 1
  | .carboxylicAcid, .inorganicIon => 1
  | .carboxylicAcid, .imide => 1
  | .amine, .carboxylicAcid => 2
  | .amine, .sulfonate => 2
  | .amine, .inorganicIon => 2
  | .amine, .amide => 1
  | .amine, .imide => 1
  | .pyridine, .carboxylicAcid => 2
  | .pyridine, .phenol => 2
  | .pyridine, .imide => 2
  | .pyridine, .amide => 1
  | .amide, .carboxylicAcid => 2
  | .amide, .pyridineAmide => 2
  | .amide, .amide => 1
  | .amide, .inorganicIon => 1
  | .phenol, .pyridineAmide => 2
  | .phenol, .amine => 2
  | .phenol, .amide => 1
  | .sulfonate, .amine => 2
  | .sulfonate, .inorganicIon => 1
  | .hydroxyl, .carboxylicAcid => 2
  | .hydroxyl, .amide => 1
  | .hydroxyl, .pyridineAmide => 1
  | _, _ => 0

/-- Physical constant `R_GAS = 8.314` (J/(mol K)). -/
def R_GAS : ℝ := 8.314

/-- Physical constant `V_REF = 100.0` (reference molar volume for chi). -/
def V_REF : ℝ := 100.0

/-- `flory_huggins_chi(api_hsp, cf_hsp, temperature_k=298.15)`:
`chi = V_REF / (R_GAS * T) * sum of squared HSP differences`, rounded to
three decimals. -/
noncomputable def flory_huggins_chi (api_hsp cf_hsp : ℝ × ℝ × ℝ)
    (temperature_k : ℝ := 298.15) : ℝ :=
  let delta_sq := (api_hsp.1 - cf_hsp.1) ^ 2 + (api_hsp.2.1 - cf_hsp.2.1) ^ 2 +
    (api_hsp.2.2 - cf_hsp.2.2) ^ 2
  round3 (V_REF / (R_GAS * temperature_k) * delta_sq)

/-- `hygro_penalty(hygro_risk, api_pka, api_type)`: tier penalty
0.80 / 0.40 / 0.05, with `base = min(base + 0.15, 1.0)` applied whenever the
risk is High, the API is a Base and its pKa exceeds 8.  Note the candidate
itself is not an argument of this function. -/
noncomputable def hygro_penalty (hygro_risk : HygroRisk) (api_pka : ℝ)
    (api_type : ApiNature) : ℝ :=
  let base : ℝ :=
    match hygro_risk with
    | .high => 0.80
    | .medium => 0.40
    | .low => 0.05
  if hygro_risk = .high ∧ api_type = .base ∧ api_pka > 8 then
    min (base + 0.15) 1.0
  else
    base

/-- `gordon_taylor_tg(tg_api_c, tg_pol_k, w_api)`.  The `None` inputs of the
Python signature are outside this model (the claims supply both Tg values);
the `tg_pol_k <= 0` guard and the `w_pol <= 0` early return are kept. -/
noncomputable def gordon_taylor_tg (tg_api_c tg_pol_k w_api : ℝ) : Option ℝ :=
  if tg_pol_k ≤ 0 then none
  else
    let tg_api_k := tg_api_c + 273.15
    let w_pol := 1.0 - w_api
    if w_pol ≤ 0 then some (round1 tg_api_c)
    else
      let K_gt := tg_api_k / tg_pol_k
      let tg_mix_k := (w_api * tg_api_k + K_gt * w_pol * tg_pol_k) /
        (w_api + K_gt * w_pol)
      some (round1 (tg_mix_k - 273.15))

/-- `supersaturation_risk_index(delta_pka, inter_type, etter_val, api_logP)`.
The Python guard `api_logP and api_logP > 3` is truthiness on a float: it
holds exactly when `api_logP > 3` (a float satisfying `> 3` is nonzero, hence
truthy); `None` logP is outside this model (the screening loop always passes
the sidebar float). -/
noncomputable def supersaturation_risk_index (delta_pka : ℝ) (inter_type : String)
    (etter_val : ℕ) (api_logP : ℝ) : String :=
  if inter_type = "Salt / Cocrystal Continuum" then
    let base : ℤ := if delta_pka < 1.0 then 3 else if delta_pka < 2.0 then 2 else 1
    let base := base - min (etter_val : ℤ) 1
    let base := if api_logP > 3 then base + 1 else base
    if base ≥ 3 then "High" else if base ≥ 2 then "Medium" else "Low"
  else if inter_type = "Unlikely" then "High"
  else "N/A"

/-- `composite_lead_score(...)`: the 30/20/20/15/10/5-weighted composite,
with `int(round(min(total, 100)))` as the final integer score.  The dict
lookup `{"N-A": 5, "Low": 5, "Medium": 2.5, "High": 0}.get(sri_label, 2.5)`
is embedded with its default branch. -/
noncomputable def composite_lead_score (delta_pka : ℝ) (etter_val : ℕ) (ra : ℝ)
    (chi : Option ℝ) (hygro_risk : HygroRisk) (ich_flag : Bool) (api_pka : ℝ)
    (api_type : ApiNature) (cf_type : CfKind) (sri_label : String) : ℤ :=
  let p_salt := cruz_cabeza_pka_probability delta_pka
  let score_pka := p_salt * 30
  let score_synthon := ((etter_val : ℝ) / 2) * 20
  let score_misc : ℝ :=
    if cf_type.isPolymer then
      match chi with
      | some c => if c < 0.5 then 20 else if c < 1.0 then 12 else 2
      | none => 10
    else
      if ra < 5 then 20 else if ra < 7 then 12 else if ra < 10 then 5 else 0
  let pen := hygro_penalty hygro_risk api_pka api_type
  let score_hygro := (1 - pen) * 15
  let score_ich : ℝ := if ich_flag then 0 else 10
  let sri_score : ℝ :=
    if sri_label = "N/A" then 5 else if sri_label = "Low" then 5
    else if sri_label = "Medium" then 2.5 else if sri_label = "High" then 0
    else 2.5
  let total := score_pka + score_synthon + score_misc + score_hygro + score_ich + sri_score
  round (min total 100)

/-! ### The coformer catalog (`coformers_db`)

Each entry keeps the fields the screening engine reads: `name`, `pKa`,
the HSP triple `dd`/`dp`/`dh`, `type`, `synthon`, `hygro_risk`, `ich_flag`
and `tg_polymer`.  Presentation-only fields (`mw`, `logP`, `rot_bonds`,
`mp_celsius`, `aq_sol_mg_ml`, `poly_risk`, regulatory notes) are not used by
any claim and are omitted. -/

structure Coformer where
  name : String
  pKa : ℝ
  dd : ℝ
  dp : ℝ
  dh : ℝ
  kind : CfKind
  synthon : CfSynthon
  hygro_risk : HygroRisk
  ich_flag : Bool
  tg_polymer : Option ℝ

/-- Catalog entry "Hydrochloride (Cl⁻)" (first entry of `coformers_db`). -/
def cf_hydrochloride : Coformer :=
  { name := "Hydrochloride (Cl⁻)", pKa := -7.0, dd := 16.5, dp := 13.0, dh := 10.0,
    kind := .saltAnion, synthon := .inorganicIon, hygro_risk := .high,
    ich_flag := false, tg_polymer := none }

/-- Catalog entry "Urea". -/
def cf_urea : Coformer :=
  { name := "Urea", pKa := 0.1, dd := 17.0, dp := 13.0, dh := 15.0,
    kind := .coformer, synthon := .amide, hygro_risk := .high,
    ich_flag := false, tg_polymer := none }

/-- Catalog entry "PVP-K30" (an ASD polymer). -/
def cf_pvp_k30 : Coformer :=
  { name := "PVP-K30", pKa := 13.0, dd := 17.4, dp := 10.8, dh := 9.5,
    kind := .polymerASD, synthon := .amide, hygro_risk := .high,
    ich_flag := false, tg_polymer := some 443.0 }

/-- The full `coformers_db` catalog, in source order. -/
def coformers_db : List Coformer :=
  [cf_hydrochloride,
   { name := "Sulfate (SO₄²⁻)", pKa := -3.0, dd := 16.0, dp := 16.0, dh := 15.0,
     kind := .saltAnion, synthon := .inorganicIon, hygro_risk := .medium,
     ich_flag := false, tg_polymer := none },
   { name := "Hydrobromide (Br⁻)", pKa := -9.0, dd := 16.5, dp := 12.0, dh := 9.0,
     kind := .saltAnion, synthon := .inorganicIon, hygro_risk := .medium,
     ich_flag := false, tg_polymer := none },
   { name := "Phosphate (H₂PO₄⁻)", pKa := 2.1, dd := 17.0, dp := 15.0, dh := 18.0,
     kind := .saltAnion, synthon := .inorganicIon, hygro_risk := .medium,
     ich_flag := false, tg_polymer := none },
   { name := "Tartrate (L-tartaric)", pKa := 2.9, dd := 17.2, dp := 12.5, dh := 21.0,
     kind := .saltAnion, synthon := .carboxylicAcid, hygro_risk := .low,
     ich_flag := false, tg_polymer := none },
   { name := "Mesylate (CH₃SO₃⁻)", pKa := -1.2, dd := 16.0, dp := 15.0, dh := 12.0,
     kind := .saltAnion, synthon := .sulfonate, hygro_risk := .low,
     ich_flag := true, tg_polymer := none },
   { name := "Esylate (C₂H₅SO₃⁻)", pKa := -1.8, dd := 16.0, dp := 14.0, dh := 11.5,
     kind := .saltAnion, synthon := .sulfonate, hygro_risk := .low,
     ich_flag := true, tg_polymer := none },
   { name := "Tosylate (C₇H₇SO₃⁻)", pKa := -1.3, dd := 18.0, dp := 14.5, dh := 11.0,
     kind := .saltAnion, synthon := .sulfonate, hygro_risk := .low,
     ich_flag := true, tg_polymer := none },
   { name := "Acetate (CH₃COO⁻)", pKa := 4.76, dd := 16.2, dp := 11.0, dh := 13.0,
     kind := .saltAnion, synthon := .carboxylicAcid, hygro_risk := .medium,
     ich_flag := false, tg_polymer := none },
   { name := "Maleate", pKa := 1.9, dd := 17.5, dp := 11.5, dh := 20.2,
     kind := .saltAnion, synthon := .carboxylicAcid, hygro_risk := .low,
     ich_flag := false, tg_polymer := none },
   { name := "Fumarate", pKa := 3.0, dd := 17.5, dp := 12.0, dh := 19.0,
     kind := .saltAnion, synthon := .carboxylicAcid, hygro_risk := .low,
     ich_flag := false, tg_polymer := none },
   { name := "Citrate", pKa := 3.1, dd := 17.5, dp := 12.5, dh := 22.0,
     kind := .saltAnion, synthon := .carboxylicAcid, hygro_risk := .medium,
     ich_flag := false, tg_polymer := none },
   { name := "Oxalate", pKa := 1.2, dd := 17.5, dp := 12.8, dh := 22.5,
     kind := .saltAnion, synthon := .carboxylicAcid, hygro_risk := .low,
     ich_flag := false, tg_polymer := none },
   { name := "Succinate", pKa := 4.2, dd := 17.0, dp := 12.2, dh := 18.5,
     kind := .saltAnion, synthon := .carboxylicAcid, hygro_risk := .low,
     ich_flag := false, tg_polymer := none },
   { name := "Besylate (C₆H₅SO₃⁻)", pKa := -1.0, dd := 18.5, dp := 14.0, dh := 11.0,
     kind := .saltAnion, synthon := .sulfonate, hygro_risk := .low,
     ich_flag := false, tg_polymer := none },
   { name := "Sodium (Na⁺)", pKa := 14.0, dd := 15.5, dp := 10.0, dh := 5.0,
     kind := .saltCation, synthon := .inorganicIon, hygro_risk := .medium,
     ich_flag := false, tg_polymer := none },
   { name := "Potassium (K⁺)", pKa := 14.0, dd := 15.0, dp := 9.0, dh := 4.0,
     kind := .saltCation, synthon := .inorganicIon, hygro_risk := .low,
     ich_flag := false, tg_polymer := none },
   { name := "Calcium (Ca²⁺)", pKa := 12.0, dd := 16.0, dp := 8.0, dh := 6.0,
     kind := .saltCation, synthon := .inorganicIon, hygro_risk := .low,
     ich_flag := false, tg_polymer := none },
   { name := "Magnesium (Mg²⁺)", pKa := 11.5, dd := 16.0, dp := 8.0, dh := 6.0,
     kind := .saltCation, synthon := .inorganicIon, hygro_risk := .low,
     ich_flag := false, tg_polymer := none },
   { name := "Meglumine", pKa := 9.5, dd := 17.5, dp := 14.0, dh := 25.0,
     kind := .saltCation, synthon := .amine, hygro_risk := .low,
     ich_flag := false, tg_polymer := none },
   { name := "Tromethamine (TRIS)", pKa := 8.1, dd := 16.5, dp := 12.0, dh := 22.0,
     kind := .saltCation, synthon := .amine, hygro_risk := .low,
     ich_flag := false, tg_polymer := none },
   { name := "L-Lysine", pKa := 9.5, dd := 17.0, dp := 13.0, dh := 20.0,
     kind := .saltCation, synthon := .amine, hygro_risk := .low,
     ich_flag := false, tg_polymer := none },
   { name := "L-Arginine", pKa := 10.8, dd := 17.5, dp := 13.5, dh := 21.0,
     kind := .saltCation, synthon := .amine, hygro_risk := .low,
     ich_flag := false, tg_polymer := none },
   { name := "Nicotinamide", pKa := 3.3, dd := 19.0, dp := 12.0, dh := 11.0,
     kind := .coformer, synthon := .pyridineAmide, hygro_risk := .low,
     ich_flag := false, tg_polymer := none },
   { name := "Saccharin", pKa := 2.0, dd := 21.0, dp := 13.9, dh := 11.5,
     kind := .coformer, synthon := .imide, hygro_risk := .low,
     ich_flag := false, tg_polymer := none },
   cf_urea,
   { name := "Glutaric Acid", pKa := 4.3, dd := 17.0, dp := 12.0, dh := 19.0,
     kind := .coformer, synthon := .carboxylicAcid, hygro_risk := .low,
     ich_flag := false, tg_polymer := none },
   { name := "Malonic Acid", pKa := 2.8, dd := 17.2, dp := 12.5, dh := 20.0,
     kind := .coformer, synthon := .carboxylicAcid, hygro_risk := .low,
     ich_flag := false, tg_polymer := none },
   { name := "Caffeine", pKa := -0.1, dd := 18.5, dp := 12.5, dh := 10.8,
     kind := .coformer, synthon := .amide, hygro_risk := .low,
     ich_flag := false, tg_polymer := none },
   { name := "Theophylline", pKa := 8.8, dd := 19.0, dp := 12.0, dh := 11.0,
     kind := .coformer, synthon := .amide, hygro_risk := .low,
     ich_flag := false, tg_polymer := none },
   cf_pvp_k30,
   { name := "HPMCAS-LF", pKa := 5.0, dd := 16.5, dp := 8.5, dh := 14.5,
     kind := .polymerASD, synthon := .carboxylicAcid, hygro_risk := .low,
     ich_flag := false, tg_polymer := some 393.0 },
   { name := "PVPVA 64", pKa := 13.0, dd := 16.8, dp := 10.2, dh := 8.0,
     kind := .polymerASD, synthon := .amide, hygro_risk := .medium,
     ich_flag := false, tg_polymer := some 379.0 },
   { name := "Eudragit L100", pKa := 4.8, dd := 16.2, dp := 9.5, dh := 16.0,
     kind := .polymerASD, synthon := .carboxylicAcid, hygro_risk := .low,
     ich_flag := false, tg_polymer := some 433.0 }]

/-! ### The coformer screening loop (source lines 1089-1178) -/

/-- The API-side inputs of the screening loop that the claims exercise
(sidebar values `api_pka`, `api_type`, `api_synthon`, the HSP triple and
`api_logP`). -/
structure ApiInput where
  pka : ℝ
  nature : ApiNature
  synthon : ApiSynthon
  dd : ℝ
  dp : ℝ
  dh : ℝ
  logP : ℝ

/-- Per-candidate `delta_pka`:
`(api_pka - cf["pKa"]) if api_type == "Base" else (cf["pKa"] - api_pka)`. -/
def delta_pka_of (api_type : ApiNature) (api_pka cf_pka : ℝ) : ℝ :=
  if api_type = .base then api_pka - cf_pka else cf_pka - api_pka

/-- Hansen distance of the screening loop:
`ra = sqrt(4*(dd1-dd2)^2 + (dp1-dp2)^2 + (dh1-dh2)^2)`. -/
noncomputable def hansen_ra (a b : ℝ × ℝ × ℝ) : ℝ :=
  Real.sqrt (4 * (a.1 - b.1) ^ 2 + (a.2.1 - b.2.1) ^ 2 + (a.2.2 - b.2.2) ^ 2)

/-- The interaction-type if-chain of the screening loop (`inter_type`). -/
noncomputable def inter_type_of (delta_pka : ℝ) (e_score : ℕ) : String :=
  if delta_pka > 4 then "Salt"
  else if -1 ≤ delta_pka ∧ delta_pka ≤ 4 then "Salt / Cocrystal Continuum"
  else if e_score > 0 then "Cocrystal"
  else "Unlikely"

/-- The miscibility label of the screening loop.  For a polymer the source
evaluates `chi and chi < 0.5` (and then `chi and chi < 1.0`): Python
truthiness on the float `chi` makes the conjunct `chi ≠ 0`.  A non-`None`
`chi` with value 0.0 therefore falls through to "Immiscible (chi>1)". -/
noncomputable def misc_label_of (isPoly : Bool) (chi : Option ℝ) (ra : ℝ) : String :=
  if isPoly then
    match chi with
    | some c =>
        if c ≠ 0 ∧ c < 0.5 then "Miscible (chi<0.5)"
        else if c ≠ 0 ∧ c < 1.0 then "Borderline (0.5-1)"
        else "Immiscible (chi>1)"
    | none => "N/A"
  else if ra < 7 then "High" else "Low"

/-- One output row of the screening loop, restricted to the computed fields
the claims are about (the remaining row fields are presentation strings). -/
structure Row where
  partner : String
  delta_pka : ℝ
  p_form : ℝ
  e_score : ℕ
  ra : ℝ
  chi : Option ℝ
  inter_type : String
  misc : String
  sri : String
  lead_score : ℤ

/-- The body of `for cf in coformers_db:` producing one result row. -/
noncomputable def screen_candidate (api : ApiInput) (cf : Coformer) : Row :=
  let delta_pka := delta_pka_of api.nature api.pka cf.pKa
  let p_form := cruz_cabeza_pka_probability delta_pka
  let e_score := etter_score api.synthon cf.synthon
  let ra := hansen_ra (api.dd, api.dp, api.dh) (cf.dd, cf.dp, cf.dh)
  let chi : Option ℝ :=
    if cf.kind.isPolymer then
      some (flory_huggins_chi (api.dd, api.dp, api.dh) (cf.dd, cf.dp, cf.dh))
    else none
  let inter := inter_type_of delta_pka e_score
  let misc := misc_label_of cf.kind.isPolymer chi ra
  let sri := supersaturation_risk_index delta_pka inter e_score api.logP
  let comp := composite_lead_score delta_pka e_score ra chi cf.hygro_risk
    cf.ich_flag api.pka api.nature cf.kind sri
  { partner := cf.name, delta_pka := delta_pka, p_form := p_form,
    e_score := e_score, ra := ra, chi := chi, inter_type := inter,
    misc := misc, sri := sri, lead_score := comp }

/-- `df_full = pd.DataFrame(results).sort_values("Lead Score", ascending=False)`:
the per-candidate rows sorted in descending order of Lead Score. -/
noncomputable def df_full (api : ApiInput) : List Row :=
  (coformers_db.map (screen_candidate api)).mergeSort
    (fun r s => decide (s.lead_score ≤ r.lead_score))

/-! ### Solvent screening (spec section 4.4) -/

/-- Modelled from the spec: the Solvent Screening Engine of spec section 4.4
is not part of the source under src/ (the file contains only the coformer
engine); its Hansen distance is the spec formula
`Ra = sqrt(4*(dd1-dd2)^2 + (dp1-dp2)^2 + (dh1-dh2)^2)`. -/
noncomputable def solvent_ra (api solv : ℝ × ℝ × ℝ) : ℝ :=
  Real.sqrt (4 * (api.1 - solv.1) ^ 2 + (api.2.1 - solv.2.1) ^ 2 +
    (api.2.2 - solv.2.2) ^ 2)

/-- Modelled from the spec: the five ordered solubility bands of the missing
Solvent Screening Engine, classified by fixed Ra thresholds
(< 5 Excellent, < 7 Good, < 9 Partial, < 11 Poor, else Insoluble). -/
noncomputable def solvent_class (ra : ℝ) : String :=
  if ra < 5 then "Excellent"
  else if ra < 7 then "Good"
  else if ra < 9 then "Partial"
  else if ra < 11 then "Poor"
  else "Insoluble"

/-! ### Numeric facts about `round3` and `exp` -/

theorem round3_eq {x : ℝ} {k : ℤ} (h1 : (k : ℝ) ≤ x * 1000 + 1 / 2)
    (h2 : x * 1000 + 1 / 2 < k + 1) : round3 x = k / 1000 := by
  have h10 : ((10 : ℝ) ^ (3 : ℕ)) = 1000 := by norm_num
  unfold round3
  rw [roundTo_eq_of 3 (k := k) (by rw [h10]; exact h1) (by rw [h10]; exact h2), h10]

theorem round3_zero : round3 0 = 0 := by
  rw [round3_eq (k := 0) (by norm_num) (by norm_num)]
  norm_num

theorem round3_one : round3 1 = 1 := by
  rw [round3_eq (k := 1000) (by norm_num) (by norm_num)]
  norm_num

theorem round3_half : round3 (1 / 2) = 0.5 := by
  rw [round3_eq (k := 500) (by norm_num) (by norm_num)]
  norm_num

theorem round3_002 : round3 0.02 = 0.02 := by
  rw [round3_eq (k := 20) (by norm_num) (by norm_num)]
  norm_num

theorem round3_005 : round3 0.05 = 0.05 := by
  rw [round3_eq (k := 50) (by norm_num) (by norm_num)]
  norm_num

theorem exp_eq_pow {n : ℕ} {c x : ℝ} (h : (n : ℝ) * x = c) :
    Real.exp c = Real.exp x ^ n := by
  rw [← h, Real.exp_nat_mul]

theorem exp_54_gt : (1991 / 9 : ℝ) < Real.exp 5.4 := by
  have ha : Real.exp 27 = Real.exp 5.4 ^ 5 := exp_eq_pow (by norm_num)
  have hb : Real.exp 27 = Real.exp 1 ^ 27 := exp_eq_pow (by norm_num)
  have key : ((1991 / 9 : ℝ)) ^ 5 < Real.exp 5.4 ^ 5 := by
    rw [← ha, hb]
    calc ((1991 / 9 : ℝ)) ^ 5 < 2.7182818283 ^ 27 := by norm_num
      _ < Real.exp 1 ^ 27 :=
        pow_lt_pow_left Real.exp_one_gt_d9 (by norm_num) (by norm_num)
  exact lt_of_pow_lt_pow_left 5 (Real.exp_pos 5.4).le key

theorem exp_54_lt : Real.exp 5.4 < 230 := by
  have ha : Real.exp 27 = Real.exp 5.4 ^ 5 := exp_eq_pow (by norm_num)
  have hb : Real.exp 27 = Real.exp 1 ^ 27 := exp_eq_pow (by norm_num)
  have key : Real.exp 5.4 ^ 5 < (230 : ℝ) ^ 5 := by
    rw [← ha, hb]
    calc Real.exp 1 ^ 27 < 2.7182818286 ^ 27 :=
        pow_lt_pow_left Real.exp_one_lt_d9 (Real.exp_pos 1).le (by norm_num)
      _ < (230 : ℝ) ^ 5 := by norm_num
  exact lt_of_pow_lt_pow_left 5 (by norm_num) key

theorem exp_72_gt : (1000 : ℝ) < Real.exp 7.2 := by
  have ha : Real.exp 36 = Real.exp 7.2 ^ 5 := exp_eq_pow (by norm_num)
  have hb : Real.exp 36 = Real.exp 1 ^ 36 := exp_eq_pow (by norm_num)
  have key : ((1000 : ℝ)) ^ 5 < Real.exp 7.2 ^ 5 := by
    rw [← ha, hb]
    calc ((1000 : ℝ)) ^ 5 < 2.7182818283 ^ 36 := by norm_num
      _ < Real.exp 1 ^ 36 :=
        pow_lt_pow_left Real.exp_one_gt_d9 (by norm_num) (by norm_num)
  exact lt_of_pow_lt_pow_left 5 (Real.exp_pos 7.2).le key

theorem exp_72_lt : Real.exp 7.2 < 1999 := by
  have ha : Real.exp 36 = Real.exp 7.2 ^ 5 := exp_eq_pow (by norm_num)
  have hb : Real.exp 36 = Real.exp 1 ^ 36 := exp_eq_pow (by norm_num)
  have key : Real.exp 7.2 ^ 5 < (1999 : ℝ) ^ 5 := by
    rw [← ha, hb]
    calc Real.exp 1 ^ 36 < 2.7182818286 ^ 36 :=
        pow_lt_pow_left Real.exp_one_lt_d9 (Real.exp_pos 1).le (by norm_num)
      _ < (1999 : ℝ) ^ 5 := by norm_num
  exact lt_of_pow_lt_pow_left 5 (by norm_num) key

/-- Value of the Cruz-Cabeza function at the continuum-side boundary point
ΔpKa = −1 (the sigmoid branch applies there). -/
theorem cruz_at_neg_one : cruz_cabeza_pka_probability (-1) = 0.004 := by
  unfold cruz_cabeza_pka_probability
  rw [if_neg (by norm_num), if_neg (by norm_num)]
  have harg : (-1.8 : ℝ) * (-1 - 2.0) = 5.4 := by norm_num
  rw [harg]
  have hE := Real.exp_pos 5.4
  have hgt := exp_54_gt
  have hlt := exp_54_lt
  have hpos : (0 : ℝ) < 1.0 + Real.exp 5.4 := by linarith
  have hs_lo : (0.0035 : ℝ) ≤ 1.0 / (1.0 + Real.exp 5.4) := by
    rw [le_div_iff hpos]
    nlinarith
  have hs_hi : 1.0 / (1.0 + Real.exp 5.4) < 0.0045 := by
    rw [div_lt_iff hpos]
    nlinarith
  rw [round3_eq (k := 4) (by nlinarith) (by nlinarith)]
  norm_num

/-- Value of the Cruz-Cabeza function just left of the boundary, at
ΔpKa = −1.0001 (the exponential branch applies there). -/
theorem cruz_left_of_boundary : cruz_cabeza_pka_probability (-1.0001) = 0.05 := by
  unfold cruz_cabeza_pka_probability
  rw [if_pos (by norm_num)]
  have harg : (-1.0001 : ℝ) + 1 = -0.0001 := by norm_num
  rw [harg]
  have hx_lo : (0.9999 : ℝ) ≤ Real.exp (-0.0001) := by
    have := Real.add_one_le_exp (-0.0001)
    linarith
  have hx_hi : Real.exp (-0.0001) < 1 := by
    have h := Real.exp_lt_exp.mpr (show (-0.0001 : ℝ) < 0 by norm_num)
    rwa [Real.exp_zero] at h
  have hmax : max 0.02 (0.05 * Real.exp (-0.0001)) = 0.05 * Real.exp (-0.0001) :=
    max_eq_right (by nlinarith)
  rw [hmax, round3_eq (k := 50) (by nlinarith) (by nlinarith)]
  norm_num

/-- Value of the Cruz-Cabeza function at the salt-side boundary point
ΔpKa = 6 (the sigmoid branch applies there). -/
theorem cruz_at_six : cruz_cabeza_pka_probability 6 = 0.999 := by
  unfold cruz_cabeza_pka_probability
  rw [if_neg (by norm_num), if_neg (by norm_num)]
  have harg : (-1.8 : ℝ) * (6 - 2.0) = -(7.2) := by norm_num
  rw [harg, Real.exp_neg]
  have hgt := exp_72_gt
  have hlt := exp_72_lt
  have hE : (0 : ℝ) < Real.exp 7.2 := Real.exp_pos 7.2
  have hinv_lo : (1 / 1999 : ℝ) < (Real.exp 7.2)⁻¹ := by
    rw [lt_inv (by norm_num) hE]
    simpa using hlt
  have hinv_hi : (Real.exp 7.2)⁻¹ < 1 / 1000 := by
    rw [inv_lt hE (by norm_num)]
    simpa using hgt
  have hpos : (0 : ℝ) < 1.0 + (Real.exp 7.2)⁻¹ := by positivity
  have hs_lo : (0.9985 : ℝ) ≤ 1.0 / (1.0 + (Real.exp 7.2)⁻¹) := by
    rw [le_div_iff hpos]
    nlinarith
  have hs_hi : 1.0 / (1.0 + (Real.exp 7.2)⁻¹) < 0.9995 := by
    rw [div_lt_iff hpos]
    nlinarith
  rw [round3_eq (k := 999) (by nlinarith) (by nlinarith)]
  norm_num

/-- Value of the Cruz-Cabeza function just right of the salt boundary. -/
theorem cruz_at_seven : cruz_cabeza_pka_probability 7 = 0.99 := by
  unfold cruz_cabeza_pka_probability
  rw [if_neg (by norm_num), if_pos (by norm_num)]

/-- Spec point check: p(ΔpKa = 6.5) = 0.99. -/
theorem cruz_at_six_point_five : cruz_cabeza_pka_probability 6.5 = 0.99 := by
  unfold cruz_cabeza_pka_probability
  rw [if_neg (by norm_num), if_pos (by norm_num)]

/-- Spec point check: p(ΔpKa = 2.0) = 0.5. -/
theorem cruz_at_two : cruz_cabeza_pka_probability 2.0 = 0.5 := by
  unfold cruz_cabeza_pka_probability
  rw [if_neg (by norm_num), if_neg (by norm_num)]
  have harg : (-1.8 : ℝ) * (2.0 - 2.0) = 0 := by norm_num
  rw [harg, Real.exp_zero]
  have h12 : (1.0 : ℝ) / (1.0 + 1) = 1 / 2 := by norm_num
  rw [h12, round3_half]

/-- The Cruz-Cabeza sigmoid branch is monotone after rounding. -/
theorem cruz_mono_middle {x y : ℝ} (hx : -1 ≤ x) (hxy : x ≤ y) (hy : y ≤ 6) :
    cruz_cabeza_pka_probability x ≤ cruz_cabeza_pka_probability y := by
  unfold cruz_cabeza_pka_probability
  rw [if_neg (by linarith), if_neg (by linarith), if_neg (by linarith),
    if_neg (by linarith)]
  apply roundTo_mono
  have h1 : (0 : ℝ) < 1.0 + Real.exp (-1.8 * (x - 2.0)) := by positivity
  have h2 : Real.exp (-1.8 * (y - 2.0)) ≤ Real.exp (-1.8 * (x - 2.0)) :=
    Real.exp_le_exp.mpr (by linarith)
  have h3 : (0 : ℝ) < 1.0 + Real.exp (-1.8 * (y - 2.0)) := by positivity
  gcongr

/-- The Cruz-Cabeza exponential branch is monotone after rounding. -/
theorem cruz_mono_low {x y : ℝ} (hxy : x ≤ y) (hy : y < -1) :
    cruz_cabeza_pka_probability x ≤ cruz_cabeza_pka_probability y := by
  unfold cruz_cabeza_pka_probability
  rw [if_pos (by linarith), if_pos hy]
  apply roundTo_mono
  apply max_le_max le_rfl
  have := Real.exp_le_exp.mpr (show x + 1 ≤ y + 1 by linarith)
  nlinarith

/-- The Cruz-Cabeza salt branch is constant. -/
theorem cruz_const_high {x y : ℝ} (hx : 6 < x) (hy : 6 < y) :
    cruz_cabeza_pka_probability x = cruz_cabeza_pka_probability y := by
  unfold cruz_cabeza_pka_probability
  rw [if_neg (by linarith), if_pos hx, if_neg (by linarith), if_pos hy]

/-- The Cruz-Cabeza probability always lies in [0, 1]. -/
theorem cruz_mem_unit (d : ℝ) :
    0 ≤ cruz_cabeza_pka_probability d ∧ cruz_cabeza_pka_probability d ≤ 1 := by
  unfold cruz_cabeza_pka_probability
  split_ifs with h1 h2
  · have hexp1 : Real.exp (d + 1) ≤ 1 := Real.exp_le_one_iff.mpr (by linarith)
    have hexp0 : (0 : ℝ) < Real.exp (d + 1) := Real.exp_pos _
    have hlo : (0.02 : ℝ) ≤ max 0.02 (0.05 * Real.exp (d + 1)) := le_max_left _ _
    have hhi : max 0.02 (0.05 * Real.exp (d + 1)) ≤ 0.05 :=
      max_le (by norm_num) (by nlinarith)
    constructor
    · calc (0 : ℝ) ≤ 0.02 := by norm_num
        _ = round3 0.02 := round3_002.symm
        _ ≤ _ := roundTo_mono 3 hlo
    · calc round3 (max 0.02 (0.05 * Real.exp (d + 1))) ≤ round3 0.05 :=
          roundTo_mono 3 hhi
        _ = 0.05 := round3_005
        _ ≤ 1 := by norm_num
  · norm_num
  · have hexp0 : (0 : ℝ) < Real.exp (-1.8 * (d - 2.0)) := Real.exp_pos _
    have h0 : (0 : ℝ) < 1.0 + Real.exp (-1.8 * (d - 2.0)) := by positivity
    have hs0 : (0 : ℝ) ≤ 1.0 / (1.0 + Real.exp (-1.8 * (d - 2.0))) := by positivity
    have hs1 : 1.0 / (1.0 + Real.exp (-1.8 * (d - 2.0))) ≤ 1 := by
      rw [div_le_one h0]
      nlinarith
    constructor
    · calc (0 : ℝ) = round3 0 := round3_zero.symm
        _ ≤ _ := roundTo_mono 3 hs0
    · calc round3 (1.0 / (1.0 + Real.exp (-1.8 * (d - 2.0)))) ≤ round3 1 :=
          roundTo_mono 3 hs1
        _ = 1 := round3_one

/-- The hygroscopicity penalty is never more than 1. -/
theorem hygro_penalty_le_one (hr : HygroRisk) (apka : ℝ) (an : ApiNature) :
    hygro_penalty hr apka an ≤ 1 := by
  unfold hygro_penalty
  split_ifs with h
  · exact le_trans (min_le_right _ 1.0) (by norm_num)
  · cases hr <;> norm_num

theorem round_min_100_le (t : ℝ) : round (min t 100) ≤ 100 := by
  have h2 := round_le_round (min_le_right t 100)
  have h100 : round (100 : ℝ) = 100 := round_eq_of (by norm_num) (by norm_num)
  rwa [h100] at h2

theorem round_nonneg_of {t : ℝ} (h : 0 ≤ t) : 0 ≤ round t := by
  have h2 := round_le_round h
  rwa [round_zero] at h2

/-! ### Claims -/

/-- Claim C1 counterexample: the Cruz-Cabeza formation probability is not
monotonically non-decreasing across the whole domain — it drops from 0.999
at ΔpKa = 6 to 0.99 at ΔpKa = 7 (across the ΔpKa = 6 branch boundary). -/
theorem claim_C1_counterexample :
    (6 : ℝ) ≤ 7 ∧
    cruz_cabeza_pka_probability 7 < cruz_cabeza_pka_probability 6 := by
  refine ⟨by norm_num, ?_⟩
  rw [cruz_at_seven, cruz_at_six]
  norm_num

/-- Claim C1 (amended): the Cruz-Cabeza probability is monotone
non-decreasing within each of its three branches (in particular on the
continuum branch −1 ≤ ΔpKa ≤ 6), and satisfies the spec point checks
p(2.0) = 0.5 and p(6.5) = 0.99; but it is neither continuous at ΔpKa = −1
nor monotone across the branch boundaries: it drops from 0.05 at
ΔpKa = −1.0001 to 0.004 at ΔpKa = −1, and from 0.999 at ΔpKa = 6 to 0.99 at
ΔpKa = 7. -/
theorem claim_C1_amended :
    (∀ x y : ℝ, x ≤ y → y < -1 →
      cruz_cabeza_pka_probability x ≤ cruz_cabeza_pka_probability y) ∧
    (∀ x y : ℝ, -1 ≤ x → x ≤ y → y ≤ 6 →
      cruz_cabeza_pka_probability x ≤ cruz_cabeza_pka_probability y) ∧
    (∀ x y : ℝ, 6 < x → 6 < y →
      cruz_cabeza_pka_probability x = cruz_cabeza_pka_probability y) ∧
    cruz_cabeza_pka_probability 2.0 = 0.5 ∧
    cruz_cabeza_pka_probability 6.5 = 0.99 ∧
    cruz_cabeza_pka_probability (-1.0001) = 0.05 ∧
    cruz_cabeza_pka_probability (-1) = 0.004 ∧
    cruz_cabeza_pka_probability 6 = 0.999 ∧
    cruz_cabeza_pka_probability 7 = 0.99 :=
  ⟨fun _ _ h h' => cruz_mono_low h h',
   fun _ _ h h' h'' => cruz_mono_middle h h' h'',
   fun _ _ h h' => cruz_const_high h h',
   cruz_at_two, cruz_at_six_point_five, cruz_left_of_boundary,
   cruz_at_neg_one, cruz_at_six, cruz_at_seven⟩

/-- Witness for the amended C1, at the concrete pair ΔpKa = 0 ≤ 1 of the
continuum branch. -/
theorem claim_C1_amended_witness :
    cruz_cabeza_pka_probability 0 ≤ cruz_cabeza_pka_probability 1 :=
  claim_C1_amended.2.1 0 1 (by norm_num) (by norm_num) (by norm_num)

/-- Claim C5: the interaction-type classification is exactly the piecewise
rule: ΔpKa > 4 gives "Salt"; −1 ≤ ΔpKa ≤ 4 gives the continuum label;
otherwise (ΔpKa < −1) a positive Etter synthon score gives "Cocrystal" and a
zero score gives "Unlikely".  (The source spells the continuum label
"Salt / Cocrystal Continuum"; the spec abbreviates it "Continuum".) -/
theorem claim_C5_inter_type (d : ℝ) (e : ℕ) :
    (d > 4 → inter_type_of d e = "Salt") ∧
    (-1 ≤ d ∧ d ≤ 4 → inter_type_of d e = "Salt / Cocrystal Continuum") ∧
    (d < -1 ∧ 0 < e → inter_type_of d e = "Cocrystal") ∧
    (d < -1 ∧ e = 0 → inter_type_of d e = "Unlikely") := by
  refine ⟨fun h => ?_, fun h => ?_, fun h => ?_, fun h => ?_⟩ <;>
    unfold inter_type_of
  · rw [if_pos h]
  · rw [if_neg (by linarith [h.2]), if_pos h]
  · rw [if_neg (by linarith [h.1]), if_neg (by rintro ⟨h1, -⟩; linarith [h.1]),
      if_pos h.2]
  · rw [if_neg (by linarith [h.1]), if_neg (by rintro ⟨h1, -⟩; linarith [h.1]),
      if_neg (by simp [h.2])]

/-- Witness for C5 at ΔpKa = 5, synthon score 0. -/
theorem claim_C5_inter_type_witness : inter_type_of 5 0 = "Salt" :=
  (claim_C5_inter_type 5 0).1 (by norm_num)

/-- Claim C6: ΔpKa is (API pKa − candidate pKa) for a Base API and
(candidate pKa − API pKa) otherwise; for an API of pKa 9.0 (Base) against
the hydrochloride catalog entry (pKa −7.0), ΔpKa = 16, the Cruz-Cabeza
probability is 0.99 and the interaction type is "Salt" (whatever the synthon
score). -/
theorem claim_C6_delta_pka :
    (∀ a c : ℝ, delta_pka_of .base a c = a - c) ∧
    (∀ a c : ℝ, delta_pka_of .acid a c = c - a) ∧
    cf_hydrochloride ∈ coformers_db ∧
    cf_hydrochloride.pKa = -7.0 ∧
    delta_pka_of .base 9.0 cf_hydrochloride.pKa = 16 ∧
    cruz_cabeza_pka_probability 16 = 0.99 ∧
    (∀ e : ℕ, inter_type_of 16 e = "Salt") := by
  refine ⟨fun a c => rfl, fun a c => rfl, ?_, rfl, ?_, ?_, fun e => ?_⟩
  · unfold coformers_db
    exact List.mem_cons_self _ _
  · show (if ApiNature.base = ApiNature.base then 9.0 - cf_hydrochloride.pKa
      else cf_hydrochloride.pKa - 9.0) = 16
    rw [if_pos rfl]
    show (9.0 : ℝ) - (-7.0) = 16
    norm_num
  · unfold cruz_cabeza_pka_probability
    rw [if_neg (by norm_num), if_pos (by norm_num)]
  · unfold inter_type_of
    rw [if_pos (by norm_num)]

/-- Claim C7 (spec-modelled): solvent screening of an API with
δd = 18.5, δp = 10.5, δh = 7.5 against a solvent with the identical HSP
triple yields Ra = 0 and the solubility band "Excellent". -/
theorem claim_C7_solvent_identical :
    solvent_ra (18.5, 10.5, 7.5) (18.5, 10.5, 7.5) = 0 ∧
    solvent_class (solvent_ra (18.5, 10.5, 7.5) (18.5, 10.5, 7.5)) = "Excellent" := by
  have h : solvent_ra (18.5, 10.5, 7.5) (18.5, 10.5, 7.5) = 0 := by
    unfold solvent_ra
    norm_num [Real.sqrt_zero]
  refine ⟨h, ?_⟩
  rw [h]
  unfold solvent_class
  rw [if_pos (by norm_num)]

/-- Claim C8: the Hansen distance of the screening loop is symmetric in its
two HSP triples, and vanishes exactly when the three components coincide. -/
theorem claim_C8_hansen_symm_zero (a1 a2 a3 b1 b2 b3 : ℝ) :
    hansen_ra (a1, a2, a3) (b1, b2, b3) = hansen_ra (b1, b2, b3) (a1, a2, a3) ∧
    (hansen_ra (a1, a2, a3) (b1, b2, b3) = 0 ↔ a1 = b1 ∧ a2 = b2 ∧ a3 = b3) := by
  constructor
  · unfold hansen_ra
    congr 1
    ring
  · unfold hansen_ra
    rw [Real.sqrt_eq_zero']
    constructor
    · intro h
      simp only at h
      have s1 := sq_nonneg (a1 - b1)
      have s2 := sq_nonneg (a2 - b2)
      have s3 := sq_nonneg (a3 - b3)
      have e1 : (a1 - b1) ^ 2 = 0 := by nlinarith
      have e2 : (a2 - b2) ^ 2 = 0 := by nlinarith
      have e3 : (a3 - b3) ^ 2 = 0 := by nlinarith
      exact ⟨sub_eq_zero.mp (pow_eq_zero_iff two_ne_zero |>.mp e1),
        sub_eq_zero.mp (pow_eq_zero_iff two_ne_zero |>.mp e2),
        sub_eq_zero.mp (pow_eq_zero_iff two_ne_zero |>.mp e3)⟩
    · rintro ⟨h1, h2, h3⟩
      simp only at h1 h2 h3 ⊢
      subst h1
      subst h2
      subst h3
      norm_num

/-- The composite never exceeds 100, whatever raw arguments it receives
(the `min(total, 100)` cap before the final rounding). -/
theorem composite_lead_score_le_100 (dpk : ℝ) (e : ℕ) (ra : ℝ) (chi : Option ℝ)
    (hr : HygroRisk) (ich : Bool) (apka : ℝ) (an : ApiNature) (ck : CfKind)
    (sri : String) :
    composite_lead_score dpk e ra chi hr ich apka an ck sri ≤ 100 := by
  unfold composite_lead_score
  exact round_min_100_le _

/-- The composite is never negative, whatever raw arguments it receives. -/
theorem composite_lead_score_nonneg (dpk : ℝ) (e : ℕ) (ra : ℝ) (chi : Option ℝ)
    (hr : HygroRisk) (ich : Bool) (apka : ℝ) (an : ApiNature) (ck : CfKind)
    (sri : String) :
    0 ≤ composite_lead_score dpk e ra chi hr ich apka an ck sri := by
  unfold composite_lead_score
  dsimp only
  apply round_nonneg_of
  refine le_min ?_ (by norm_num)
  have hp := (cruz_mem_unit dpk).1
  have hpen := hygro_penalty_le_one hr apka an
  refine add_nonneg (add_nonneg (add_nonneg (add_nonneg (add_nonneg ?_ ?_) ?_) ?_) ?_) ?_
  · exact mul_nonneg hp (by norm_num)
  · positivity
  · rcases chi with _ | c <;> dsimp only <;> split_ifs <;> norm_num
  · nlinarith
  · split_ifs <;> norm_num
  · split_ifs <;> norm_num

/-- The sidebar default API inputs (pKa 7.0, Base, Carboxylic Acid,
HSP (18.5, 10.5, 7.5), logP 2.0). -/
def api_default : ApiInput :=
  { pka := 7.0, nature := .base, synthon := .carboxylicAcid,
    dd := 18.5, dp := 10.5, dh := 7.5, logP := 2.0 }

/-- Claim C2: for every catalog candidate and every API input the composite
lead score of the screening row lies in [0, 100]; moreover the final
`min(total, 100)` cap bounds the composite by 100 for arbitrary raw
component inputs, so any raw sum exceeding 100 would be capped at 100. -/
theorem claim_C2_score_range :
    (∀ (api : ApiInput) (cf : Coformer), cf ∈ coformers_db →
      0 ≤ (screen_candidate api cf).lead_score ∧
        (screen_candidate api cf).lead_score ≤ 100) ∧
    (∀ (dpk : ℝ) (e : ℕ) (ra : ℝ) (chi : Option ℝ) (hr : HygroRisk) (ich : Bool)
      (apka : ℝ) (an : ApiNature) (ck : CfKind) (sri : String),
      composite_lead_score dpk e ra chi hr ich apka an ck sri ≤ 100) := by
  constructor
  · intro api cf _
    exact ⟨composite_lead_score_nonneg _ _ _ _ _ _ _ _ _ _,
      composite_lead_score_le_100 _ _ _ _ _ _ _ _ _ _⟩
  · intro dpk e ra chi hr ich apka an ck sri
    exact composite_lead_score_le_100 _ _ _ _ _ _ _ _ _ _

/-- Witness for C2 at the default API inputs and the hydrochloride entry. -/
theorem claim_C2_score_range_witness :
    0 ≤ (screen_candidate api_default cf_hydrochloride).lead_score ∧
      (screen_candidate api_default cf_hydrochloride).lead_score ≤ 100 :=
  claim_C2_score_range.1 api_default cf_hydrochloride
    (by unfold coformers_db; exact List.mem_cons_self _ _)

/-- Claim C3 counterexample: Urea is a catalog candidate that is not a
hydrochloride, with hygroscopicity risk High; against a base API of pKa 9
the penalty used by the composite is 0.95 (= 0.80 + 0.15), not the bare
tier value 0.80 that the claim promises for non-hydrochloride candidates. -/
theorem claim_C3_counterexample :
    cf_urea ∈ coformers_db ∧
    cf_urea.name = "Urea" ∧
    cf_urea.hygro_risk = .high ∧
    hygro_penalty cf_urea.hygro_risk 9 .base = 0.95 ∧
    (0.95 : ℝ) ≠ 0.80 := by
  refine ⟨?_, rfl, rfl, ?_, by norm_num⟩
  · unfold coformers_db
    simp
  · show hygro_penalty .high 9 .base = 0.95
    unfold hygro_penalty
    rw [if_pos ⟨rfl, rfl, by norm_num⟩]
    rw [min_eq_left (by norm_num)]
    norm_num

/-- Claim C3 (amended): the extra +0.15 hygroscopicity penalty is applied
whenever the risk tier is High and the API is a base with pKa > 8,
irrespective of the candidate — `hygro_penalty` does not depend on the
candidate at all, only on its risk tier; otherwise the penalty is exactly
the tier value 0.80/0.40/0.05. -/
theorem claim_C3_amended (hr : HygroRisk) (apka : ℝ) (an : ApiNature) :
    hygro_penalty hr apka an =
      (match hr with | .high => (0.80 : ℝ) | .medium => 0.40 | .low => 0.05) +
      (if hr = .high ∧ an = .base ∧ apka > 8 then 0.15 else 0) := by
  unfold hygro_penalty
  split_ifs with h
  · obtain ⟨h1, -, -⟩ := h
    subst h1
    show min (0.80 + 0.15) 1.0 = 0.80 + 0.15
    rw [min_eq_left (by norm_num)]
  · cases hr <;> simp

/-- The API input used to exhibit the χ = 0 miscibility slip: its HSP triple
equals PVP-K30's. -/
def api_match_pvp : ApiInput :=
  { pka := 7.0, nature := .base, synthon := .carboxylicAcid,
    dd := 17.4, dp := 10.8, dh := 9.5, logP := 2.0 }

/-- Claim C4 (code bug evidence): for an API whose HSP triple equals
PVP-K30's, the Flory-Huggins χ is 0, yet the screening row's miscibility
label is "Immiscible (chi>1)" — the Python guard `chi and chi < 0.5`
treats χ = 0.0 as falsy, so the Miscible and Borderline branches are both
skipped, contradicting the claimed rule χ < 0.5 → Miscible. -/
theorem claim_C4_chi_zero_eval :
    cf_pvp_k30 ∈ coformers_db ∧
    flory_huggins_chi (17.4, 10.8, 9.5) (17.4, 10.8, 9.5) = 0 ∧
    (screen_candidate api_match_pvp cf_pvp_k30).chi = some 0 ∧
    (screen_candidate api_match_pvp cf_pvp_k30).misc = "Immiscible (chi>1)" := by
  have hchi : flory_huggins_chi (17.4, 10.8, 9.5) (17.4, 10.8, 9.5) = 0 := by
    unfold flory_huggins_chi
    dsimp only
    have h : ((17.4 : ℝ) - 17.4) ^ 2 + ((10.8 : ℝ) - 10.8) ^ 2 +
        ((9.5 : ℝ) - 9.5) ^ 2 = 0 := by norm_num
    rw [h, mul_zero, round3_zero]
  have hrow_chi : (screen_candidate api_match_pvp cf_pvp_k30).chi =
      some (flory_huggins_chi (17.4, 10.8, 9.5) (17.4, 10.8, 9.5)) := rfl
  refine ⟨?_, hchi, ?_, ?_⟩
  · unfold coformers_db
    simp
  · rw [hrow_chi, hchi]
  · have hrow_misc : (screen_candidate api_match_pvp cf_pvp_k30).misc =
        misc_label_of true
          (some (flory_huggins_chi (17.4, 10.8, 9.5) (17.4, 10.8, 9.5)))
          (hansen_ra (17.4, 10.8, 9.5) (17.4, 10.8, 9.5)) := rfl
    rw [hrow_misc, hchi]
    unfold misc_label_of
    rw [if_pos rfl]
    dsimp only
    rw [if_neg (by rintro ⟨h0, -⟩; exact h0 rfl),
      if_neg (by rintro ⟨h0, -⟩; exact h0 rfl)]

/-- Claim C9: the screening output table `df_full` is sorted in descending
order of Lead Score — every row's score is at least the next row's. -/
theorem claim_C9_sorted_desc (api : ApiInput) :
    (df_full api).Chain' (fun r s => s.lead_score ≤ r.lead_score) := by
  unfold df_full
  have hp := @List.sorted_mergeSort Row
    (fun r s => decide (s.lead_score ≤ r.lead_score))
    (fun a b c h1 h2 => by
      simp only [decide_eq_true_eq] at *
      exact le_trans h2 h1)
    (fun a b => by
      simp only [Bool.or_eq_true, decide_eq_true_eq]
      exact le_total b.lead_score a.lead_score)
    (coformers_db.map (screen_candidate api))
  have hp2 : (List.mergeSort (coformers_db.map (screen_candidate api))
      (fun r s => decide (s.lead_score ≤ r.lead_score))).Pairwise
      (fun r s => s.lead_score ≤ r.lead_score) := by
    refine hp.imp ?_
    intro a b h
    simpa using h
  exact hp2.chain'

theorem round1_eq {x : ℝ} {k : ℤ} (h1 : (k : ℝ) ≤ x * 10 + 1 / 2)
    (h2 : x * 10 + 1 / 2 < k + 1) : round1 x = k / 10 := by
  have h10 : ((10 : ℝ) ^ (1 : ℕ)) = 10 := by norm_num
  unfold round1
  rw [roundTo_eq_of 1 (k := k) (by rw [h10]; exact h1) (by rw [h10]; exact h2), h10]

/-- Rounding to one decimal moves a value by at most 1/20. -/
theorem abs_round1_sub_le (x : ℝ) : |round1 x - x| ≤ 1 / 20 := by
  have h := abs_sub_round (x * 10 ^ (1 : ℕ))
  have heq : round1 x - x = -((x * 10 ^ (1 : ℕ) - (round (x * 10 ^ (1 : ℕ)) : ℝ)) / 10) := by
    unfold round1 roundTo
    field_simp
    ring
  rw [heq, abs_neg, abs_div]
  have h10 : |(10 : ℝ)| = 10 := by norm_num
  rw [h10]
  linarith

/-- Claim C10 counterexample: for an (unphysical) API glass transition of
−303.15 °C (negative absolute temperature), polymer Tg 300 K and drug
loading 0.5, Gordon-Taylor returns −339.8 °C, strictly below both
pure-component Tg values even after allowing the 0.1 °C rounding slack. -/
theorem claim_C10_counterexample :
    gordon_taylor_tg (-303.15) 300 0.5 = some (-339.8) ∧
    (-339.8 : ℝ) < min (-303.15) (300 - 273.15) - 1 / 10 := by
  constructor
  · unfold gordon_taylor_tg
    rw [if_neg (by norm_num)]
    dsimp only
    rw [if_neg (by norm_num)]
    have hval : ∀ x : ℝ, x = -20389 / 60 → round1 x = -339.8 := by
      intro x hx
      rw [hx, round1_eq (x := -20389 / 60) (k := -3398) (by norm_num) (by norm_num)]
      norm_num
    exact congrArg some (hval _ (by norm_num))
  · rw [min_eq_left (by norm_num)]
    norm_num

/-- Claim C10 (amended): for every API Tg above absolute zero
(tg_api_c > −273.15 °C), polymer Tg > 0 K and loading fraction w ∈ [0, 1],
the Gordon-Taylor mixture Tg lies, up to the 0.1 °C rounding (±0.05),
between the two pure-component Tg values, and at w = 1 it is the API Tg
rounded to one decimal. -/
theorem claim_C10_amended (tg_api_c tg_pol_k w : ℝ) (hapi : -273.15 < tg_api_c)
    (hpol : 0 < tg_pol_k) (hw0 : 0 ≤ w) (hw1 : w ≤ 1) :
    ∃ v, gordon_taylor_tg tg_api_c tg_pol_k w = some v ∧
      min tg_api_c (tg_pol_k - 273.15) - 1 / 20 ≤ v ∧
      v ≤ max tg_api_c (tg_pol_k - 273.15) + 1 / 20 ∧
      (w = 1 → v = round1 tg_api_c) := by
  have hA : (0 : ℝ) < tg_api_c + 273.15 := by linarith
  unfold gordon_taylor_tg
  rw [if_neg (not_le.mpr hpol)]
  dsimp only
  by_cases hwp : 1.0 - w ≤ 0
  · rw [if_pos hwp]
    refine ⟨round1 tg_api_c, rfl, ?_, ?_, fun _ => rfl⟩
    · have h := abs_round1_sub_le tg_api_c
      have h1 := abs_le.mp h
      have hm : min tg_api_c (tg_pol_k - 273.15) ≤ tg_api_c := min_le_left _ _
      linarith [h1.2]
    · have h := abs_round1_sub_le tg_api_c
      have h1 := abs_le.mp h
      have hm : tg_api_c ≤ max tg_api_c (tg_pol_k - 273.15) := le_max_left _ _
      linarith [h1.1]
  · rw [if_neg hwp]
    push_neg at hwp
    set A := tg_api_c + 273.15 with hAdef
    set P := tg_pol_k with hPdef
    set wp := 1.0 - w with hwpdef
    have hwp' : 0 < wp := hwp
    have hPne : P ≠ 0 := ne_of_gt hpol
    have hD' : 0 < w * P + A * wp := by
      have : 0 ≤ w * P := mul_nonneg hw0 hpol.le
      nlinarith
    have hDpos : 0 < w + A / P * wp := by
      have hnum : w + A / P * wp = (w * P + A * wp) / P := by
        field_simp
      rw [hnum]
      positivity
    have hmix : (w * A + A / P * wp * P) / (w + A / P * wp) =
        A * P / (w * P + A * wp) := by
      rw [div_eq_div_iff (ne_of_gt hDpos) (ne_of_gt hD')]
      field_simp
      ring
    rw [hmix]
    set T := A * P / (w * P + A * wp) with hTdef
    clear_value T
    clear hmix hDpos
    clear_value A P wp
    have hT_lo : min A P ≤ T := by
      rcases le_total A P with hAP | hPA
      · rw [min_eq_left hAP, hTdef, le_div_iff hD']
        have hkey : A * wp * A ≤ A * wp * P :=
          mul_le_mul_of_nonneg_left hAP (mul_nonneg hA.le hwp'.le)
        rw [hwpdef] at hkey ⊢
        nlinarith [hkey]
      · rw [min_eq_right hPA, hTdef, le_div_iff hD']
        have hkey : w * P * P ≤ w * P * A :=
          mul_le_mul_of_nonneg_left hPA (mul_nonneg hw0 hpol.le)
        rw [hwpdef]
        nlinarith [hkey]
    have hT_hi : T ≤ max A P := by
      rcases le_total A P with hAP | hPA
      · rw [max_eq_right hAP, hTdef, div_le_iff hD']
        have hkey : w * P * A ≤ w * P * P :=
          mul_le_mul_of_nonneg_left hAP (mul_nonneg hw0 hpol.le)
        rw [hwpdef]
        nlinarith [hkey]
      · rw [max_eq_left hPA, hTdef, div_le_iff hD']
        have hkey : A * wp * P ≤ A * wp * A :=
          mul_le_mul_of_nonneg_left hPA (mul_nonneg hA.le hwp'.le)
        rw [hwpdef] at hkey ⊢
        nlinarith [hkey]
    have hmin_c : min tg_api_c (P - 273.15) = min A P - 273.15 := by
      rcases le_total A P with hAP | hPA
      · have h3 := hAP
        rw [hAdef] at h3
        have h2 : tg_api_c ≤ P - 273.15 := by linarith
        rw [min_eq_left hAP, min_eq_left h2, hAdef]
        ring
      · have h3 := hPA
        rw [hAdef] at h3
        have h2 : P - 273.15 ≤ tg_api_c := by linarith
        rw [min_eq_right hPA, min_eq_right h2]
    have hmax_c : max tg_api_c (P - 273.15) = max A P - 273.15 := by
      rcases le_total A P with hAP | hPA
      · have h3 := hAP
        rw [hAdef] at h3
        have h2 : tg_api_c ≤ P - 273.15 := by linarith
        rw [max_eq_right hAP, max_eq_right h2]
      · have h3 := hPA
        rw [hAdef] at h3
        have h2 : P - 273.15 ≤ tg_api_c := by linarith
        rw [max_eq_left hPA, max_eq_left h2, hAdef]
        ring
    refine ⟨round1 (T - 273.15), rfl, ?_, ?_, fun h1 => ?_⟩
    · have h := abs_le.mp (abs_round1_sub_le (T - 273.15))
      rw [hmin_c]
      linarith [h.2]
    · have h := abs_le.mp (abs_round1_sub_le (T - 273.15))
      rw [hmax_c]
      linarith [h.1]
    · exfalso
      rw [hwpdef] at hwp'
      rw [h1] at hwp'
      norm_num at hwp'

/-- Witness for the amended C10 at Tg_api = 100 °C, Tg_pol = 400 K,
loading 0.5. -/
theorem claim_C10_amended_witness :
    ∃ v, gordon_taylor_tg 100 400 0.5 = some v ∧
      min (100 : ℝ) (400 - 273.15) - 1 / 20 ≤ v ∧
      v ≤ max (100 : ℝ) (400 - 273.15) + 1 / 20 ∧
      ((0.5 : ℝ) = 1 → v = round1 100) :=
  claim_C10_amended 100 400 0.5 (by norm_num) (by norm_num) (by norm_num) (by norm_num)

end SaltCocrystal
